import Mathlib

/-!
Formal model of the Hallersolutions benchmark service (`server.py`).

The service loads a benchmark table once at startup (`load_benchmark`,
lines 22-70) and serves a single request operation (`berakna`,
lines 102-164) that filters the table, aggregates matched rows by
column-wise median, and applies the potential-estimation formula
(`estimate_potential_frictionless`, lines 77-86).

Modelling conventions:
* Python floats are modelled as exact rationals (`ℚ`).  Float literals
  such as `0.30`, `0.75`, `1.5`, `100.0` are modelled by the decimal
  values they denote.  Every concrete value asserted by a theorem below
  was checked to be reproduced exactly by IEEE-754 double arithmetic as
  well, so the idealisation is faithful on all evaluated inputs.
* Non-finite floats matter to the request path (`float("inf")` passes
  `to_num`, and `round` raises on it), so payload numbers and the
  products involving the request revenue live in explicit NaN/Inf-aware
  types (`NumV`, `ExtR`) rather than in bare `ℚ`.
* Python `round` (both forms) rounds half to even; `roundHalfEven`
  below implements exactly that on `ℚ`.
* JSON payload values are classified by how `str(x)` and `float(x)`
  behave on them (`PValue`), which is all `berakna` ever does with them.
-/

namespace Haller

/-- Python `round(x)` on a finite value: round half to even (banker's
rounding), returning an integer.  CPython rounds the exact value of the
float argument, which is what this computes on `ℚ`. -/
def roundHalfEven (q : ℚ) : ℤ :=
  if q - (⌊q⌋ : ℚ) < 1/2 then ⌊q⌋
  else if 1/2 < q - (⌊q⌋ : ℚ) then ⌊q⌋ + 1
  else if ⌊q⌋ % 2 = 0 then ⌊q⌋ else ⌊q⌋ + 1

/-- Python `round(x, 1)`: round half to even at one decimal place. -/
def roundTo1 (q : ℚ) : ℚ :=
  (roundHalfEven (q * 10) : ℚ) / 10

/-- A finite or infinite float value — what `to_num` can return besides
`None` (`math.isnan` filters NaN out, but infinities pass through). -/
inductive NumV
  | fin (q : ℚ)
  | pinf
  | ninf
deriving DecidableEq, Repr

/-- Result of a float arithmetic expression involving the request
revenue: finite, infinite, or NaN. -/
inductive ExtR
  | fin (q : ℚ)
  | pinf
  | ninf
  | nan
deriving DecidableEq, Repr

/-- `revenue * (v / 100.0)`-style products: a possibly-infinite revenue
times a finite rational.  `inf * 0.0` is NaN; otherwise the sign rules
of IEEE-754 multiplication apply. -/
def mulNQ : NumV → ℚ → ExtR
  | .fin a, q => .fin (a * q)
  | .pinf, q => if q = 0 then .nan else if 0 < q then .pinf else .ninf
  | .ninf, q => if q = 0 then .nan else if 0 < q then .ninf else .pinf

/-- Python `max(0.0, e)`: returns `e` only when `e > 0.0` holds, so both
`-inf` and NaN compare false and yield `0.0`. -/
def max0 : ExtR → ExtR
  | .fin q => .fin (max 0 q)
  | .pinf => .pinf
  | .ninf => .fin 0
  | .nan => .fin 0

/-- Python `round(e)` on a possibly non-finite value: raises
`OverflowError` on infinities and `ValueError` on NaN; `none` models
the raise. -/
def roundExt : ExtR → Option ℤ
  | .fin q => some (roundHalfEven q)
  | _ => none

/-- A JSON payload value, classified by the only two things `berakna`
does with one: `str(x)` and `float(x)`.  String values carry the
outcome of `float(s)`: a finite number, NaN, an infinity, or a parse
failure (`ValueError`). -/
inductive PValue
  | pNum (q : ℚ)                        -- finite JSON number
  | pNaN                                 -- non-finite number: NaN
  | pInf (pos : Bool)                    -- non-finite number: ±inf
  | pStrNum (s : String) (q : ℚ)         -- string, float(s) = finite q
  | pStrNaN (s : String)                 -- string, float(s) is NaN
  | pStrInf (s : String) (pos : Bool)    -- string, float(s) is ±inf
  | pStrBad (s : String)                 -- string, float(s) raises
  | pNull                                -- JSON null / Python None
  | pBool (b : Bool)                     -- JSON boolean
  | pOther                               -- array/object: float() raises
deriving DecidableEq, Repr

/-- Python `str(x)` on a payload value.  For strings it is the string
itself; the exact rendering of non-string values never matters to any
claim, only that it is some string. -/
def pyStr : PValue → String
  | .pNum q => toString q
  | .pNaN => "nan"
  | .pInf true => "inf"
  | .pInf false => "-inf"
  | .pStrNum s _ => s
  | .pStrNaN s => s
  | .pStrInf s _ => s
  | .pStrBad s => s
  | .pNull => "None"
  | .pBool true => "True"
  | .pBool false => "False"
  | .pOther => "object"

/-- `to_num` (server.py lines 88-97): `None` stays `None`; otherwise try
`float(x)` and map NaN to `None`; any exception yields `None`.
Infinities are *not* filtered (only `math.isnan` is checked). -/
def to_num : PValue → Option NumV
  | .pNull => none
  | .pNum q => some (.fin q)
  | .pNaN => none
  | .pInf true => some .pinf
  | .pInf false => some .ninf
  | .pStrNum _ q => some (.fin q)
  | .pStrNaN _ => none
  | .pStrInf _ true => some .pinf
  | .pStrInf _ false => some .ninf
  | .pStrBad _ => none
  | .pBool true => some (.fin 1)
  | .pBool false => some (.fin 0)
  | .pOther => none

/-- One row of the benchmark table after `load_benchmark`'s type
normalisation: three string keys, five nullable numeric columns
(`pd.to_numeric(..., errors="coerce")` turns unparseable cells into
NaN, modelled as `none`). -/
structure Row where
  year : String
  sni_3 : String
  size_class : String
  antal_foretag : Option ℚ
  rorelsemarginal_pct : Option ℚ
  nettomarginal_pct : Option ℚ
  personalkostnad_netto_pct : Option ℚ
  personalkostnad_per_anst_tkr : Option ℚ
deriving DecidableEq, Repr

/-- The in-memory benchmark table (`DF`). -/
abbrev Table := List Row

/-- Insert into a sorted list (ascending). -/
def insertSorted (x : ℚ) : List ℚ → List ℚ
  | [] => [x]
  | y :: ys => if x ≤ y then x :: y :: ys else y :: insertSorted x ys

/-- Ascending insertion sort. -/
def sortQ (l : List ℚ) : List ℚ := l.foldr insertSorted []

/-- `pandas.DataFrame.median` semantics for one column: nulls were
already excluded by the caller; empty → null; odd count → middle value
of the sorted list; even count → mean of the two middle values. -/
def medianOpt (l : List ℚ) : Option ℚ :=
  let s := sortQ l
  if s.length = 0 then none
  else if s.length % 2 = 1 then some (s.getD (s.length / 2) 0)
  else some ((s.getD (s.length / 2 - 1) 0 + s.getD (s.length / 2) 0) / 2)

/-!  Dataset loader (`load_benchmark`, server.py lines 22-70). -/

/-- A raw cell as read by `pd.read_parquet` / `pd.read_csv`, classified
by what `astype(str)` and `pd.to_numeric(errors="coerce")` do with it:
a non-numeric text, a number, a numeric-looking text, or a missing
value (NaN). -/
inductive RawCell
  | rstr (s : String)
  | rnum (q : ℚ)
  | rnumstr (s : String) (q : ℚ)
  | rnull
deriving DecidableEq, Repr

/-- A raw tabular file: a column-name header and rows aligned with it. -/
structure RawTable where
  cols : List String
  rows : List (List RawCell)
deriving DecidableEq, Repr

/-- Cell of row `r` in column `c` (first column of that name). -/
def getCell (cols : List String) (r : List RawCell) (c : String) : RawCell :=
  match cols.findIdx? (fun x => x == c) with
  | some i => r.getD i .rnull
  | none => .rnull

/-- `df.rename(columns=rename_map)` (lines 37-44): the five SCB
ContentsCode → internal-name pairs; all other names pass through. -/
def renameMap (c : String) : String :=
  if c = "0000028K" then "antal_foretag"
  else if c = "0000032G" then "rorelsemarginal_pct"
  else if c = "0000032H" then "nettomarginal_pct"
  else if c = "0000033Z" then "personalkostnad_netto_pct"
  else if c = "00000355" then "personalkostnad_per_anst_tkr"
  else c

/-- One harmonisation fallback (lines 47-50): if `target` is absent but
`src` exists, append a copy of `src` under the name `target`; applies
only when the target column is missing. -/
def addFallback (t : RawTable) (target src : String) : RawTable :=
  if t.cols.contains target then t
  else if t.cols.contains src then
    { cols := t.cols ++ [target]
      rows := t.rows.map (fun r => r ++ [getCell t.cols r src]) }
  else t

/-- Rename plus the two harmonisation fallbacks, in source order. -/
def harmonize (t : RawTable) : RawTable :=
  addFallback (addFallback { t with cols := t.cols.map renameMap }
      "size_class" "Storleksklass") "year" "Tid"

/-- The eight required columns (lines 53-57), in source order. -/
def requiredCols : List String :=
  ["year", "sni_3", "size_class", "antal_foretag", "rorelsemarginal_pct",
   "nettomarginal_pct", "personalkostnad_netto_pct", "personalkostnad_per_anst_tkr"]

/-- `astype(str)` on a cell.  The exact rendering of numeric cells never
matters to a claim; missing values render as the text "nan". -/
def cellStr : RawCell → String
  | .rstr s => s
  | .rnumstr s _ => s
  | .rnum q => toString q
  | .rnull => "nan"

/-- `pd.to_numeric(..., errors="coerce")` on a cell: numbers and
numeric-looking text parse; anything else becomes null. -/
def cellNum : RawCell → Option ℚ
  | .rstr _ => none
  | .rnumstr _ q => some q
  | .rnum q => some q
  | .rnull => none

/-- `.replace({"001": "0"})` on the size-class column (line 65):
whole-value replacement of the literal text "001". -/
def normalizeSize (s : String) : String :=
  if s = "001" then "0" else s

/-- Type normalisation of one raw row (lines 62-68). -/
def toRow (cols : List String) (r : List RawCell) : Row :=
  { year := cellStr (getCell cols r "year")
    sni_3 := cellStr (getCell cols r "sni_3")
    size_class := normalizeSize (cellStr (getCell cols r "size_class"))
    antal_foretag := cellNum (getCell cols r "antal_foretag")
    rorelsemarginal_pct := cellNum (getCell cols r "rorelsemarginal_pct")
    nettomarginal_pct := cellNum (getCell cols r "nettomarginal_pct")
    personalkostnad_netto_pct := cellNum (getCell cols r "personalkostnad_netto_pct")
    personalkostnad_per_anst_tkr := cellNum (getCell cols r "personalkostnad_per_anst_tkr") }

/-- The loader's failure modes: no source file found (FileNotFoundError,
lines 30-34), or required columns missing after harmonisation
(ValueError listing the missing and the present columns, lines 58-60). -/
inductive LoadErr
  | fileNotFound
  | schemaErr (missing : List String) (present : List String)
deriving DecidableEq, Repr

deriving instance DecidableEq for Except

/-- Process the chosen source file: rename, fallbacks, validation, type
normalisation (lines 36-70). -/
def processFile (t0 : RawTable) : Except LoadErr Table :=
  if requiredCols.filter (fun c => !((harmonize t0).cols.contains c)) = [] then
    .ok ((harmonize t0).rows.map (toRow (harmonize t0).cols))
  else
    .error (.schemaErr
      (requiredCols.filter (fun c => !((harmonize t0).cols.contains c)))
      (harmonize t0).cols)

/-- `load_benchmark` (lines 22-70).  The three candidate files are
modelled by three `Option RawTable` arguments in probe order
(`benchmark_master_clean.parquet`, then `benchmark_master_clean.csv`,
then `benchmark_master.csv`): `some` means the file exists with that
parsed content.  The first existing file is used; none → error. -/
def load_benchmark (parquet cleanCsv rawCsv : Option RawTable) :
    Except LoadErr Table :=
  match parquet with
  | some t => processFile t
  | none =>
    match cleanCsv with
    | some t => processFile t
    | none =>
      match rawCsv with
      | some t => processFile t
      | none => .error .fileNotFound

/-!  Potential model (`estimate_potential_frictionless`, lines 77-86). -/

/-- `base = max(0.5, min(6.0, bench_op_margin_pct * 0.30))` (line 79). -/
def baseGap (m : ℚ) : ℚ := max (1/2) (min 6 (m * (3/10)))

/-- The `gaps` dict (lines 80-84): percentage-point gaps for the three
tiers. -/
structure Gaps where
  low : ℚ
  mid : ℚ
  high : ℚ
deriving DecidableEq, Repr

/-- The `pot` dict (line 85): currency potential per tier; involves the
possibly non-finite revenue. -/
structure PotE where
  low : ExtR
  mid : ExtR
  high : ExtR
deriving DecidableEq, Repr

/-- `estimate_potential_frictionless(revenue_sek, bench_op_margin_pct)`
(lines 77-86): returns `(pot, gaps)` where each `pot` entry is
`max(0.0, revenue_sek * (gap / 100.0))`. -/
def estimate_potential_frictionless (revenue_sek : NumV)
    (bench_op_margin_pct : ℚ) : PotE × Gaps :=
  (⟨max0 (mulNQ revenue_sek ((baseGap bench_op_margin_pct * (3/4)) / 100)),
    max0 (mulNQ revenue_sek (baseGap bench_op_margin_pct / 100)),
    max0 (mulNQ revenue_sek ((baseGap bench_op_margin_pct * (3/2)) / 100))⟩,
   ⟨baseGap bench_op_margin_pct * (3/4),
    baseGap bench_op_margin_pct,
    baseGap bench_op_margin_pct * (3/2)⟩)

/-!  Request operation (`berakna`, lines 102-164). -/

/-- The JSON request payload: the four keys `berakna` reads (`none` =
key absent); any other keys are ignored by the handler. -/
structure Payload where
  year : Option PValue
  sni_3 : Option PValue
  size_class : Option PValue
  revenue : Option PValue
deriving DecidableEq, Repr

/-- `str(payload.get(key, dflt))` for a string default. -/
def getStr (v : Option PValue) (dflt : String) : String :=
  match v with
  | none => dflt
  | some x => pyStr x

/-- Python `str.strip()`: drop leading and trailing whitespace. -/
def pyStrip (s : String) : String :=
  String.mk (((s.data.dropWhile Char.isWhitespace).reverse.dropWhile
    Char.isWhitespace).reverse)

/-- The validated query (lines 113-119): `year` defaults to "2024",
`sni_3` and `size_class` are stripped and must be non-empty, `revenue`
must survive `to_num`. -/
structure Query where
  year : String
  sni_3 : String
  size_class : String
  revenue : NumV
deriving DecidableEq, Repr

/-- Field extraction and validation (lines 113-119): `none` exactly
when `not sni_3 or not size_class or revenue is None`. -/
def parseQuery (p : Payload) : Option Query :=
  match to_num (Option.getD p.revenue .pNull) with
  | none => none
  | some rev =>
    if pyStrip (getStr p.sni_3 "") = "" ∨ pyStrip (getStr p.size_class "") = "" then
      none
    else
      some ⟨getStr p.year "2024", pyStrip (getStr p.sni_3 ""),
            pyStrip (getStr p.size_class ""), rev⟩

/-- The exact-match filter (lines 121-125): rows whose three keys equal
the query's, by string equality. -/
def matchedRows (t : Table) (year sni size : String) : Table :=
  t.filter (fun r => decide (r.year = year ∧ r.sni_3 = sni ∧ r.size_class = size))

/-- The three inline error results of `berakna`. -/
inductive BErr
  | missingFields
  | noBenchmark (year sni size : String)
  | incompleteData
deriving DecidableEq, Repr

/-- The human-readable message carried by each error result
(lines 119, 128, 140). -/
def errorMessage : BErr → String
  | .missingFields =>
      "Missing required fields: sni_3, size_class, revenue (and optional year)"
  | .noBenchmark y s z =>
      "No benchmark for year=" ++ y ++ ", sni_3=" ++ s ++ ", size_class=" ++ z
  | .incompleteData => "Benchmark data incomplete for selected segment."

/-- The success record (lines 148-164), with Python's types: `round(x)`
gives integers, `round(x, 1)` gives floats, optional fields may be
null. -/
structure Resp where
  antal_foretag : Option ℤ
  rorelsemarginal_pct : ℚ
  nettomarginal_pct : ℚ
  personalkostnad_netto_pct : ℚ
  personalkostnad_per_anst_tkr : Option ℤ
  median_ebit_kr : ℤ
  median_personal_kr : ℤ
  gap_low_pp : ℚ
  gap_high_pp : ℚ
  potential_low_kr : ℤ
  potential_mid_kr : ℤ
  potential_high_kr : ℤ
deriving DecidableEq, Repr

/-- Outcome of one call to `berakna`: a success record, a structured
`{error: message}` value, or an uncaught exception escaping the handler
(`round` raising on a non-finite value). -/
inductive BOutcome
  | success (r : Resp)
  | failure (e : BErr)
  | crash
deriving DecidableEq, Repr

/-- Lines 142-164: the derived amounts, the potential model, and the
response record.  Each `roundExt` is a Python `round` that raises on a
non-finite argument; any raise escapes the handler (`crash`). -/
def buildResp (revenue : NumV) (antal : Option ℚ) (opm npm staff : ℚ)
    (staffper : Option ℚ) : BOutcome :=
  match roundExt (mulNQ revenue (opm / 100)),
        roundExt (mulNQ revenue (staff / 100)),
        roundExt (estimate_potential_frictionless revenue opm).1.low,
        roundExt (estimate_potential_frictionless revenue opm).1.mid,
        roundExt (estimate_potential_frictionless revenue opm).1.high with
  | some ebit, some pers, some plow, some pmid, some phigh =>
    .success
      { antal_foretag := antal.map roundHalfEven
        rorelsemarginal_pct := roundTo1 opm
        nettomarginal_pct := roundTo1 npm
        personalkostnad_netto_pct := roundTo1 staff
        personalkostnad_per_anst_tkr := staffper.map roundHalfEven
        median_ebit_kr := ebit
        median_personal_kr := pers
        gap_low_pp := roundTo1 (estimate_potential_frictionless revenue opm).2.low
        gap_high_pp := roundTo1 (estimate_potential_frictionless revenue opm).2.high
        potential_low_kr := plow
        potential_mid_kr := pmid
        potential_high_kr := phigh }
  | _, _, _, _, _ => .crash

/-- Lines 121-164 after validation: filter, per-column medians with
nulls excluded, mandatory-median check, response construction. -/
def beraknaCore (t : Table) (q : Query) : BOutcome :=
  if matchedRows t q.year q.sni_3 q.size_class = [] then
    .failure (.noBenchmark q.year q.sni_3 q.size_class)
  else
    match medianOpt ((matchedRows t q.year q.sni_3 q.size_class).filterMap
            Row.rorelsemarginal_pct),
          medianOpt ((matchedRows t q.year q.sni_3 q.size_class).filterMap
            Row.nettomarginal_pct),
          medianOpt ((matchedRows t q.year q.sni_3 q.size_class).filterMap
            Row.personalkostnad_netto_pct) with
    | some opm, some npm, some staff =>
      buildResp q.revenue
        (medianOpt ((matchedRows t q.year q.sni_3 q.size_class).filterMap
          Row.antal_foretag))
        opm npm staff
        (medianOpt ((matchedRows t q.year q.sni_3 q.size_class).filterMap
          Row.personalkostnad_per_anst_tkr))
    | _, _, _ => .failure .incompleteData

/-- `berakna(payload)` (lines 102-164). -/
def berakna (t : Table) (p : Payload) : BOutcome :=
  match parseQuery p with
  | none => .failure .missingFields
  | some q => beraknaCore t q

/-- `berakna` with the shared module-level table threaded as explicit
state: the handler only reads `DF` (the filter result is a `.copy()`,
line 125) and never assigns it, so the state component passes through
every step unchanged. -/
def beraknaState (t : Table) (p : Payload) : Table × BOutcome :=
  match parseQuery p with
  | none => (t, .failure .missingFields)
  | some q => (t, beraknaCore t q)

/-!  Concrete fixtures used by witnesses and counterexamples. -/

/-- The single benchmark row of the spec's end-to-end example. -/
def rowSpec : Row :=
  { year := "2024", sni_3 := "432", size_class := "5-9"
    antal_foretag := none
    rorelsemarginal_pct := some 10
    nettomarginal_pct := some 5
    personalkostnad_netto_pct := some 20
    personalkostnad_per_anst_tkr := none }

/-- A one-row table as in the spec's end-to-end example. -/
def tSpec : Table := [rowSpec]

/-- The end-to-end example request: `{year:"2024", sni_3:"432",
size_class:"5-9", revenue:5000000}`.  The strings "2024" and "432" parse
as floats, "5-9" does not. -/
def pSpec : Payload :=
  { year := some (.pStrNum "2024" 2024)
    sni_3 := some (.pStrNum "432" 432)
    size_class := some (.pStrBad "5-9")
    revenue := some (.pNum 5000000) }

/-- What the code actually returns on the end-to-end example: note
`gap_low_pp = 2.2` (Python rounds the tie 2.25 half-to-even). -/
def respSpec : Resp :=
  { antal_foretag := none
    rorelsemarginal_pct := 10
    nettomarginal_pct := 5
    personalkostnad_netto_pct := 20
    personalkostnad_per_anst_tkr := none
    median_ebit_kr := 500000
    median_personal_kr := 1000000
    gap_low_pp := 11/5
    gap_high_pp := 9/2
    potential_low_kr := 112500
    potential_mid_kr := 150000
    potential_high_kr := 225000 }

/-- The same example request with `revenue` sent as the string "inf":
`float("inf")` succeeds and is not NaN, so validation passes. -/
def pInf : Payload :=
  { year := none
    sni_3 := some (.pStrNum "432" 432)
    size_class := some (.pStrBad "5-9")
    revenue := some (.pStrInf "inf" true) }

/-- The `gap_low_pp` field of an outcome, when it is a success. -/
def gapLowOf : BOutcome → Option ℚ
  | .success r => some r.gap_low_pp
  | _ => none

/-- Two-row table for the aggregation claims: even-count median on the
operating margin, a null excluded from the net-margin median, an
all-null optional column. -/
def t7 : Table :=
  [{ year := "2024", sni_3 := "111", size_class := "0"
     antal_foretag := none
     rorelsemarginal_pct := some 4
     nettomarginal_pct := some 5
     personalkostnad_netto_pct := some 20
     personalkostnad_per_anst_tkr := some 100 },
   { year := "2024", sni_3 := "111", size_class := "0"
     antal_foretag := none
     rorelsemarginal_pct := some 6
     nettomarginal_pct := none
     personalkostnad_netto_pct := some 10
     personalkostnad_per_anst_tkr := none }]

/-- Request matching both rows of `t7`, revenue 1000. -/
def p7 : Payload :=
  { year := some (.pStrNum "2024" 2024)
    sni_3 := some (.pStrNum "111" 111)
    size_class := some (.pStrNum "0" 0)
    revenue := some (.pNum 1000) }

/-- The validated form of `p7`. -/
def q7 : Query := ⟨"2024", "111", "0", .fin 1000⟩

/-- The success record `berakna t7 p7` produces: medians 5 / 5 / 15,
null `antal_foretag`, staff cost per employee 100. -/
def resp7 : Resp :=
  { antal_foretag := none
    rorelsemarginal_pct := 5
    nettomarginal_pct := 5
    personalkostnad_netto_pct := 15
    personalkostnad_per_anst_tkr := some 100
    median_ebit_kr := 50
    median_personal_kr := 150
    gap_low_pp := 11/10
    gap_high_pp := 11/5
    potential_low_kr := 11
    potential_mid_kr := 15
    potential_high_kr := 22 }

/-- A loaded-table row whose size class is "0" (as a raw value "001"
would have been normalised to). -/
def rowC3 : Row :=
  { year := "2024", sni_3 := "432", size_class := "0"
    antal_foretag := some 10
    rorelsemarginal_pct := some 10
    nettomarginal_pct := some 5
    personalkostnad_netto_pct := some 20
    personalkostnad_per_anst_tkr := some 500 }

/-- One-row table for the size-class normalisation claim. -/
def tC3 : Table := [rowC3]

/-- Request with `size_class` "001" (the text "001" parses as the
float 1.0, so it is a numeric-looking string). -/
def p001 : Payload :=
  { year := some (.pStrNum "2024" 2024)
    sni_3 := some (.pStrNum "432" 432)
    size_class := some (.pStrNum "001" 1)
    revenue := some (.pNum 1000) }

/-- The same request with `size_class` "0". -/
def p0 : Payload :=
  { year := some (.pStrNum "2024" 2024)
    sni_3 := some (.pStrNum "432" 432)
    size_class := some (.pStrNum "0" 0)
    revenue := some (.pNum 1000) }

/-- Raw source file whose single row has the raw size-class value
"001"; loading it produces exactly `tC3`. -/
def rawC3 : RawTable :=
  { cols := ["year", "sni_3", "size_class", "antal_foretag",
             "rorelsemarginal_pct", "nettomarginal_pct",
             "personalkostnad_netto_pct", "personalkostnad_per_anst_tkr"]
    rows := [[.rnumstr "2024" 2024, .rnumstr "432" 432, .rnumstr "001" 1,
              .rnum 10, .rnum 10, .rnum 5, .rnum 20, .rnum 500]] }

/-- A raw source file missing six of the eight required columns. -/
def rawBad : RawTable := { cols := ["year", "sni_3"], rows := [] }

/-!  Helper lemmas. -/

theorem roundHalfEven_floor_le (q : ℚ) : ⌊q⌋ ≤ roundHalfEven q := by
  unfold roundHalfEven; split_ifs <;> omega

theorem roundHalfEven_le_floor_add_one (q : ℚ) :
    roundHalfEven q ≤ ⌊q⌋ + 1 := by
  unfold roundHalfEven; split_ifs <;> omega

theorem roundHalfEven_nonneg {q : ℚ} (h : 0 ≤ q) : 0 ≤ roundHalfEven q := by
  have h0 : (0 : ℤ) ≤ ⌊q⌋ := Int.floor_nonneg.mpr h
  have h1 := roundHalfEven_floor_le q
  omega

theorem roundHalfEven_mono {a b : ℚ} (h : a ≤ b) :
    roundHalfEven a ≤ roundHalfEven b := by
  rcases lt_or_eq_of_le (Int.floor_mono h) with hf | hf
  · have h1 := roundHalfEven_le_floor_add_one a
    have h2 := roundHalfEven_floor_le b
    omega
  · unfold roundHalfEven
    rw [hf]
    split_ifs <;> first | omega | linarith

theorem roundTo1_mono {a b : ℚ} (h : a ≤ b) : roundTo1 a ≤ roundTo1 b := by
  unfold roundTo1
  have h1 : roundHalfEven (a * 10) ≤ roundHalfEven (b * 10) :=
    roundHalfEven_mono (by linarith)
  have h2 : ((roundHalfEven (a * 10) : ℤ) : ℚ) ≤ ((roundHalfEven (b * 10) : ℤ) : ℚ) := by
    exact_mod_cast h1
  gcongr

theorem roundExt_max0_nonneg {e : ExtR} {z : ℤ}
    (h : roundExt (max0 e) = some z) : 0 ≤ z := by
  cases e with
  | fin q =>
    simp only [max0, roundExt, Option.some.injEq] at h
    subst h
    exact roundHalfEven_nonneg (le_max_left 0 q)
  | pinf => simp [max0, roundExt] at h
  | ninf =>
    simp only [max0, roundExt, Option.some.injEq] at h
    subst h
    exact roundHalfEven_nonneg le_rfl
  | nan =>
    simp only [max0, roundExt, Option.some.injEq] at h
    subst h
    exact roundHalfEven_nonneg le_rfl

theorem baseGap_ge_half (m : ℚ) : 1/2 ≤ baseGap m := le_max_left _ _

theorem baseGap_le_six (m : ℚ) : baseGap m ≤ 6 :=
  max_le (by norm_num) (min_le_left _ _)

theorem buildResp_ne_failure (rev : NumV) (antal : Option ℚ) (opm npm staff : ℚ)
    (sp : Option ℚ) (e : BErr) :
    buildResp rev antal opm npm staff sp ≠ .failure e := by
  unfold buildResp; split <;> simp

theorem buildResp_success {rev : NumV} {antal : Option ℚ} {opm npm staff : ℚ}
    {sp : Option ℚ} {r : Resp}
    (h : buildResp rev antal opm npm staff sp = .success r) :
    r.antal_foretag = antal.map roundHalfEven
    ∧ r.rorelsemarginal_pct = roundTo1 opm
    ∧ r.nettomarginal_pct = roundTo1 npm
    ∧ r.personalkostnad_netto_pct = roundTo1 staff
    ∧ r.personalkostnad_per_anst_tkr = sp.map roundHalfEven
    ∧ r.gap_low_pp = roundTo1 (baseGap opm * (3/4))
    ∧ r.gap_high_pp = roundTo1 (baseGap opm * (3/2))
    ∧ 0 ≤ r.potential_low_kr ∧ 0 ≤ r.potential_mid_kr ∧ 0 ≤ r.potential_high_kr := by
  unfold buildResp at h
  split at h
  case _ ebit pers plow pmid phigh hebit hpers hlow hmid hhigh =>
    injection h with hr
    subst hr
    refine ⟨rfl, rfl, rfl, rfl, rfl, rfl, rfl, ?_, ?_, ?_⟩
    · exact roundExt_max0_nonneg hlow
    · exact roundExt_max0_nonneg hmid
    · exact roundExt_max0_nonneg hhigh
  case _ => exact absurd h (by simp)

theorem normalizeSize_ne_001 (s : String) : normalizeSize s ≠ "001" := by
  unfold normalizeSize
  split
  · decide
  · assumption

theorem berakna_eq_core {t : Table} {p : Payload} {q : Query}
    (hq : parseQuery p = some q) : berakna t p = beraknaCore t q := by
  unfold berakna; rw [hq]

theorem baseGap_low_le_mid (m : ℚ) : baseGap m * (3/4) ≤ baseGap m := by
  have h := baseGap_ge_half m; linarith

theorem baseGap_mid_le_high (m : ℚ) : baseGap m ≤ baseGap m * (3/2) := by
  have h := baseGap_ge_half m; linarith

theorem baseGap_low_le_high (m : ℚ) :
    baseGap m * (3/4) ≤ baseGap m * (3/2) := by
  have h := baseGap_ge_half m; linarith

/-!  Claim theorems. -/

/-- Claim C5: for every operating-margin value, however extreme, the
computed base gap (the `mid` gap, line 79) equals
clamp(margin × 0.30, min = 0.5, max = 6.0) and therefore always lies
within [0.5, 6.0]. -/
theorem claim_C5_base_clamped (rev : NumV) (m : ℚ) :
    (estimate_potential_frictionless rev m).2.mid
      = max (1/2) (min 6 (m * (3/10)))
    ∧ 1/2 ≤ (estimate_potential_frictionless rev m).2.mid
    ∧ (estimate_potential_frictionless rev m).2.mid ≤ 6 :=
  ⟨rfl, baseGap_ge_half m, baseGap_le_six m⟩

/-- Claim C6: the three gap percentages satisfy low ≤ mid ≤ high, each
potential amount is max(0, revenue × gap/100), and on every success
result the gap fields are ordered and the three potential currency
amounts are nonnegative — a negative revenue never yields a negative
potential. -/
theorem claim_C6_gap_order_potential_nonneg :
    (∀ (rev : NumV) (m : ℚ),
        (estimate_potential_frictionless rev m).2.low
          ≤ (estimate_potential_frictionless rev m).2.mid
      ∧ (estimate_potential_frictionless rev m).2.mid
          ≤ (estimate_potential_frictionless rev m).2.high
      ∧ (estimate_potential_frictionless rev m).1.low
          = max0 (mulNQ rev ((estimate_potential_frictionless rev m).2.low / 100))
      ∧ (estimate_potential_frictionless rev m).1.mid
          = max0 (mulNQ rev ((estimate_potential_frictionless rev m).2.mid / 100))
      ∧ (estimate_potential_frictionless rev m).1.high
          = max0 (mulNQ rev ((estimate_potential_frictionless rev m).2.high / 100)))
    ∧ (∀ (t : Table) (p : Payload) (r : Resp), berakna t p = .success r →
        r.gap_low_pp ≤ r.gap_high_pp
        ∧ 0 ≤ r.potential_low_kr ∧ 0 ≤ r.potential_mid_kr
        ∧ 0 ≤ r.potential_high_kr) := by
  constructor
  · intro rev m
    exact ⟨baseGap_low_le_mid m, baseGap_mid_le_high m, rfl, rfl, rfl⟩
  · intro t p r h
    cases hq : parseQuery p with
    | none =>
      have hb : berakna t p = .failure .missingFields := by
        unfold berakna; rw [hq]
      rw [hb] at h
      exact absurd h (by simp)
    | some q =>
      rw [berakna_eq_core hq] at h
      unfold beraknaCore at h
      split at h
      · exact absurd h (by simp)
      · split at h <;> try exact absurd h (by simp)
        obtain ⟨_, _, _, _, _, hgl, hgh, hp1, hp2, hp3⟩ := buildResp_success h
        refine ⟨?_, hp1, hp2, hp3⟩
        rw [hgl, hgh]
        exact roundTo1_mono (baseGap_low_le_high _)

/-- Claim C7: with at least one matched row, each numeric column is
aggregated independently by the standard median with nulls excluded
(`medianOpt` over `filterMap`), the incomplete-benchmark-data error is
returned exactly when one of the three mandatory medians is null, and a
success result carries the (possibly null) optional medians and the
rounded mandatory medians. -/
theorem claim_C7_median_aggregation (t : Table) (p : Payload) (q : Query)
    (hq : parseQuery p = some q)
    (hm : matchedRows t q.year q.sni_3 q.size_class ≠ []) :
    (berakna t p = .failure .incompleteData ↔
      medianOpt ((matchedRows t q.year q.sni_3 q.size_class).filterMap
        Row.rorelsemarginal_pct) = none
      ∨ medianOpt ((matchedRows t q.year q.sni_3 q.size_class).filterMap
          Row.nettomarginal_pct) = none
      ∨ medianOpt ((matchedRows t q.year q.sni_3 q.size_class).filterMap
          Row.personalkostnad_netto_pct) = none)
    ∧ (∀ r : Resp, berakna t p = .success r →
        r.antal_foretag = (medianOpt ((matchedRows t q.year q.sni_3
            q.size_class).filterMap Row.antal_foretag)).map roundHalfEven
        ∧ r.personalkostnad_per_anst_tkr = (medianOpt ((matchedRows t q.year
            q.sni_3 q.size_class).filterMap
            Row.personalkostnad_per_anst_tkr)).map roundHalfEven
        ∧ some r.rorelsemarginal_pct = (medianOpt ((matchedRows t q.year
            q.sni_3 q.size_class).filterMap
            Row.rorelsemarginal_pct)).map roundTo1
        ∧ some r.nettomarginal_pct = (medianOpt ((matchedRows t q.year
            q.sni_3 q.size_class).filterMap
            Row.nettomarginal_pct)).map roundTo1
        ∧ some r.personalkostnad_netto_pct = (medianOpt ((matchedRows t q.year
            q.sni_3 q.size_class).filterMap
            Row.personalkostnad_netto_pct)).map roundTo1) := by
  rw [berakna_eq_core hq]
  unfold beraknaCore
  rw [if_neg hm]
  rcases ho : medianOpt ((matchedRows t q.year q.sni_3 q.size_class).filterMap
      Row.rorelsemarginal_pct) with _ | o <;>
    rcases hn : medianOpt ((matchedRows t q.year q.sni_3 q.size_class).filterMap
      Row.nettomarginal_pct) with _ | n <;>
      rcases hs : medianOpt ((matchedRows t q.year q.sni_3 q.size_class).filterMap
        Row.personalkostnad_netto_pct) with _ | s <;>
        simp only [ho, hn, hs] <;> try simp
  -- remaining: all three medians present
  constructor
  · simp [buildResp_ne_failure]
  · intro r hr
    obtain ⟨h1, h2, h3, h4, h5, _, _, _, _, _⟩ := buildResp_success hr
    exact ⟨h1, h5, by rw [h2], by rw [h3], by rw [h4]⟩

/-- Claim C8: the loader probes the three candidate files in fixed
priority order and uses the first that exists with no merging, fails
with a file-not-found error when none exists, and fails with a schema
error listing both the missing required columns and the columns present
whenever a required column is missing after harmonisation. -/
theorem claim_C8_loader_probe_and_schema :
    (load_benchmark none none none = .error .fileNotFound)
    ∧ (∀ (a : RawTable) (b c : Option RawTable),
        load_benchmark (some a) b c = processFile a)
    ∧ (∀ (b : RawTable) (c : Option RawTable),
        load_benchmark none (some b) c = processFile b)
    ∧ (∀ c : RawTable, load_benchmark none none (some c) = processFile c)
    ∧ (∀ (a : RawTable) (b c : Option RawTable),
        requiredCols.filter (fun col => !((harmonize a).cols.contains col)) ≠ [] →
        load_benchmark (some a) b c
          = .error (.schemaErr
              (requiredCols.filter (fun col => !((harmonize a).cols.contains col)))
              (harmonize a).cols)) := by
  refine ⟨rfl, fun a b c => rfl, fun b c => rfl, fun c => rfl, ?_⟩
  intro a b c h
  show processFile a = _
  unfold processFile
  rw [if_neg h]

/-- Claim C9: the shared benchmark table is never mutated by the
request operation — threading it as explicit state through `berakna`
returns it unchanged for every payload. -/
theorem claim_C9_table_not_mutated (t : Table) (p : Payload) :
    (beraknaState t p).1 = t ∧ (beraknaState t p).2 = berakna t p := by
  cases hq : parseQuery p <;> simp [beraknaState, berakna, hq]

/-- Claim C10: a revenue sent as a string that parses to a finite float
is accepted and used downstream exactly as if the number itself had
been sent. -/
theorem claim_C10_string_revenue (t : Table) (y s z : Option PValue)
    (str : String) (q : ℚ) :
    to_num (.pStrNum str q) = to_num (.pNum q)
    ∧ berakna t ⟨y, s, z, some (.pStrNum str q)⟩
        = berakna t ⟨y, s, z, some (.pNum q)⟩ :=
  ⟨rfl, rfl⟩

/-- Claim C3 (amended): size-class normalisation happens at load time,
not at the request interface — every loaded table contains no row with
size class "001" (a raw "001" is stored as "0"), so a query with
size class "001" matches no row of any loaded table. -/
theorem claim_C3_amended (t0 : RawTable) (rows : Table)
    (h : processFile t0 = .ok rows) :
    (∀ r ∈ rows, r.size_class ≠ "001")
    ∧ ∀ y s, matchedRows rows y s "001" = [] := by
  unfold processFile at h
  split at h
  · injection h with h
    subst h
    have hall : ∀ r ∈ (harmonize t0).rows.map (toRow (harmonize t0).cols),
        r.size_class ≠ "001" := by
      intro r hr
      rcases List.mem_map.mp hr with ⟨raw, _, rfl⟩
      exact normalizeSize_ne_001 _
    refine ⟨hall, ?_⟩
    intro y s
    unfold matchedRows
    rw [List.filter_eq_nil_iff]
    intro r hr
    simp only [decide_eq_true_eq, not_and]
    intro _ _
    exact hall r hr
  · exact absurd h (by simp)

section ConcreteEvaluation

attribute [local semireducible] Rat.mul Rat.add Rat.inv Rat.sub

/-- Claim C1: the request operation is claimed never to raise — but on
the spec's own example table, sending `revenue` as the string "inf"
passes validation (`float("inf")` is not NaN) and `round` then raises
an uncaught OverflowError, crashing the request. -/
theorem claim_C1_crash_on_infinite_revenue :
    berakna tSpec pInf = .crash := by decide

/-- Claim C2 (counterexample): on the spec's end-to-end example the
code returns `gap_low_pp = 2.2`, not the claimed 2.3 — Python's
`round(2.25, 1)` rounds the tie half-to-even, down to 2.2. -/
theorem claim_C2_counterexample :
    gapLowOf (berakna tSpec pSpec) = some (11/5)
    ∧ gapLowOf (berakna tSpec pSpec) ≠ some (23/10) := by decide

/-- Claim C2 (amended): the end-to-end example produces base 3.0,
`gap_low_pp = 2.2` (round-half-even of 2.25), `gap_high_pp = 4.5`,
`potential_low_kr = 112500`, `potential_high_kr = 225000`,
`median_ebit_kr = 500000`. -/
theorem claim_C2_amended_end_to_end :
    berakna tSpec pSpec = .success respSpec := by decide

/-- Claim C3 (counterexample): on a loaded table holding a row with
size class "0", the query "001" and the query "0" select different row
sets — the request interface performs no size-class normalisation. -/
theorem claim_C3_counterexample :
    matchedRows tC3 "2024" "432" "001" ≠ matchedRows tC3 "2024" "432" "0"
    ∧ berakna tC3 p001 ≠ berakna tC3 p0 := by decide

/-- Claim C3 (witness): instantiates the amended claim on a concrete
raw file whose row has the raw size-class value "001". -/
theorem claim_C3_witness : matchedRows tC3 "2024" "432" "001" = [] :=
  (claim_C3_amended rawC3 tC3 (by decide)).2 "2024" "432"

/-- Claim C4: validation is claimed to reject every non-finite revenue
— but `to_num` only filters NaN, so an infinite revenue passes
validation and the operation proceeds to the lookup (returning the
not-found error on an empty table instead of the validation error). -/
theorem claim_C4_infinite_revenue_passes_validation :
    to_num (.pStrInf "inf" true) = some .pinf
    ∧ berakna [] pInf = .failure (.noBenchmark "2024" "432" "5-9")
    ∧ berakna [] pInf ≠ .failure .missingFields
    ∧ errorMessage .missingFields
        = "Missing required fields: sni_3, size_class, revenue (and optional year)" := by
  decide

/-- Claim C6 (witness): instantiates the gap-ordering and
potential-nonnegativity theorem on the end-to-end example. -/
theorem claim_C6_witness :
    respSpec.gap_low_pp ≤ respSpec.gap_high_pp
    ∧ 0 ≤ respSpec.potential_low_kr
    ∧ 0 ≤ respSpec.potential_mid_kr
    ∧ 0 ≤ respSpec.potential_high_kr :=
  claim_C6_gap_order_potential_nonneg.2 tSpec pSpec respSpec (by decide)

/-- Claim C7 (witness): instantiates the median-aggregation theorem on
a two-row segment with an even-count median, a null excluded from one
column's median, and an all-null optional column. -/
theorem claim_C7_witness :
    resp7.antal_foretag = (medianOpt ((matchedRows t7 q7.year q7.sni_3
        q7.size_class).filterMap Row.antal_foretag)).map roundHalfEven
    ∧ resp7.personalkostnad_per_anst_tkr = (medianOpt ((matchedRows t7 q7.year
        q7.sni_3 q7.size_class).filterMap
        Row.personalkostnad_per_anst_tkr)).map roundHalfEven
    ∧ some resp7.rorelsemarginal_pct = (medianOpt ((matchedRows t7 q7.year
        q7.sni_3 q7.size_class).filterMap
        Row.rorelsemarginal_pct)).map roundTo1
    ∧ some resp7.nettomarginal_pct = (medianOpt ((matchedRows t7 q7.year
        q7.sni_3 q7.size_class).filterMap
        Row.nettomarginal_pct)).map roundTo1
    ∧ some resp7.personalkostnad_netto_pct = (medianOpt ((matchedRows t7
        q7.year q7.sni_3 q7.size_class).filterMap
        Row.personalkostnad_netto_pct)).map roundTo1 :=
  (claim_C7_median_aggregation t7 p7 q7 (by decide) (by decide)).2
    resp7 (by decide)

/-- Claim C8 (witness): instantiates the schema-error clause on a raw
file missing six required columns — the error lists exactly the missing
columns and the columns present. -/
theorem claim_C8_witness :
    load_benchmark (some rawBad) none none
      = .error (.schemaErr
          ["size_class", "antal_foretag", "rorelsemarginal_pct",
           "nettomarginal_pct", "personalkostnad_netto_pct",
           "personalkostnad_per_anst_tkr"]
          ["year", "sni_3"]) := by
  rw [claim_C8_loader_probe_and_schema.2.2.2.2 rawBad none none (by decide)]
  decide

end ConcreteEvaluation

end Haller
